import Mathlib

/-!
Verification development for `network_tool.py`, a command-line diagnostic
utility with three parts: a dispatcher (`main`), a BGP/ASN routing-data
lookup (`bgp`, with helper `get_ip_or_none`), and a DNS lookup (`fqdn`).

The Python source is shallowly embedded below.  JSON response bodies are
modelled by the inductive `Json`; Python dictionary/`len`/truthiness/str
semantics used by the source are modelled by executable functions; the
possibility of an uncaught Python exception (`KeyError`, `AttributeError`,
`TypeError`, `IndexError`) escaping the handlers that the source installs
is modelled with `Except PyExn`.

Modelling notes (fidelity limits, none of which affect the claims below):
* `str.isdigit` is modelled for ASCII tokens (`pyIsDigit`); Python also
  accepts some non-ASCII digit code points, for which `int()` can then
  fail.  No claim exercises such tokens.
* `ipaddress.ip_network` is modelled for IPv4 literals with an optional
  decimal prefix length and the default `strict=True` host-bits check
  (`ipNetworkParse`); IPv6 literals and dotted netmasks are not modelled.
  No claim exercises them.
* HTTP responses arrive already JSON-decoded (`HttpResp.ok`); transport
  failures, which the source catches as `requests.exceptions.RequestException`,
  are `HttpResp.exn`.
-/

/-- JSON values, as produced by `response.json()`. -/
inductive Json where
  | null : Json
  | bool (b : Bool) : Json
  | str (s : String) : Json
  | num (n : Int) : Json
  | arr (xs : List Json) : Json
  | obj (kvs : List (String × Json)) : Json

/-- Python exceptions that can escape the handlers installed by the source
(`except requests.exceptions.RequestException` and `except ValueError` in
`bgp`; no handler for these kinds exists there). -/
inductive PyExn where
  | keyError (k : String) : PyExn
  | attributeError : PyExn
  | typeError : PyExn
  deriving DecidableEq

/-- First binding of a key in a JSON object (Python dict lookup). -/
def Json.lookup (k : String) : List (String × Json) → Option Json
  | [] => none
  | (k', v) :: rest => if k' = k then some v else Json.lookup k rest

/-- Python `d.get(k, default)`: default on a missing key; on a non-dict
receiver the attribute `.get` does not exist (`AttributeError`). -/
def pyGet (j : Json) (k : String) (default : Json) : Except PyExn Json :=
  match j with
  | .obj kvs => .ok ((Json.lookup k kvs).getD default)
  | _ => .error .attributeError

/-- Python `d[k]` for a string key: `KeyError` on a missing key, `TypeError`
when the receiver is not a dict. -/
def pyIndex (j : Json) (k : String) : Except PyExn Json :=
  match j with
  | .obj kvs =>
    match Json.lookup k kvs with
    | some v => .ok v
    | none => .error (.keyError k)
  | _ => .error .typeError

/-- Python truthiness of a JSON value. -/
def jTruthy : Json → Bool
  | .null => false
  | .bool b => b
  | .str s => !(s = "")
  | .num n => !(n = 0)
  | .arr xs => !xs.isEmpty
  | .obj kvs => !kvs.isEmpty

/-- Python `len(x)` on a JSON value (`TypeError` on numbers and the like). -/
def pyLen : Json → Except PyExn Int
  | .str s => .ok s.length
  | .arr xs => .ok xs.length
  | .obj kvs => .ok kvs.length
  | _ => .error .typeError

/-- Python iteration `for x in j` (`TypeError` on non-iterables; iterating a
dict yields its keys). -/
def pyIter : Json → Except PyExn (List Json)
  | .arr xs => .ok xs
  | .obj kvs => .ok (kvs.map (fun kv => Json.str kv.1))
  | .str s => .ok (s.data.map (fun c => Json.str (String.mk [c])))
  | _ => .error .typeError

/-- Python `str(x)` for the values the source converts (integers via
`str(prefix['cidr'])` etc.); container reprs are approximated, Python
renders them with quoting the source never relies on. -/
def pyStr : Json → String
  | .null => "None"
  | .bool b => if b then "True" else "False"
  | .str s => s
  | .num n => toString n
  | .arr _ => "[...]"
  | .obj _ => "{...}"

/-- Python `str.isdigit()` restricted to ASCII: nonempty and all decimal
digits (`"".isdigit()` is `False`). -/
def pyIsDigit (s : String) : Bool :=
  !s.data.isEmpty && s.data.all Char.isDigit

/-- Value of a string of decimal digits (what `int(s)` returns on a string
accepted by the ASCII `isdigit` test). -/
def digitsToNat (l : List Char) : Nat :=
  l.foldl (fun acc c => acc * 10 + (c.toNat - 48)) 0

/-- Python `int(s)` for a string accepted by the ASCII `isdigit` test. -/
def pyInt (s : String) : Nat :=
  digitsToNat s.data

/-- Whether `pat` is an initial segment of `l`. -/
def leadsWith : List Char → List Char → Bool
  | [], _ => true
  | _ :: _, [] => false
  | x :: xs, y :: ys => x = y && leadsWith xs ys

/-- Python `needle in hay` (contiguous-substring test) for the nonempty
literal needles of line 156. -/
def containsChars (needle : List Char) : List Char → Bool
  | [] => leadsWith needle []
  | y :: ys => leadsWith needle (y :: ys) || containsChars needle ys

/-- Python `needle in hay` on strings. -/
def pyIn (needle hay : String) : Bool :=
  containsChars needle.data hay.data

/-- Python `s.split(sep)` for a one-character separator (structural over
the character list; `"".split(c)` is `[""]`). -/
def splitOnChar (c : Char) : List Char → List (List Char)
  | [] => [[]]
  | x :: xs =>
    match splitOnChar c xs with
    | [] => [[]]
    | r :: rs => if x = c then [] :: r :: rs else (x :: r) :: rs

/-- One dotted-quad octet as parsed by `ipaddress` (1-3 ASCII digits, no
leading zero unless the octet is exactly `0`, value at most 255). -/
def parseOctet (l : List Char) : Option Nat :=
  if l.isEmpty then none
  else if l.length > 3 then none
  else if !l.all Char.isDigit then none
  else if l.length > 1 && l.headD ' ' = '0' then none
  else if digitsToNat l ≤ 255 then some (digitsToNat l) else none

/-- Dotted-quad IPv4 address as a number below `2^32`. -/
def parseIPv4 (l : List Char) : Option Nat :=
  match splitOnChar '.' l with
  | [a, b, c, d] => do
    let o1 ← parseOctet a
    let o2 ← parseOctet b
    let o3 ← parseOctet c
    let o4 ← parseOctet d
    pure (((o1 * 256 + o2) * 256 + o3) * 256 + o4)
  | _ => none

/-- Decimal prefix length `0..32` as parsed by `ipaddress` (digits only;
leading zeros are accepted there, unlike in octets). -/
def parsePrefixLen (l : List Char) : Option Nat :=
  if l.isEmpty then none
  else if !l.all Char.isDigit then none
  else if digitsToNat l ≤ 32 then some (digitsToNat l) else none

/-- `ipaddress.ip_network(s)` (default `strict=True`) for IPv4 literals: a
bare address becomes a `/32` network; a CIDR must have no host bits set.
Returns the network as (address value, prefix length). -/
def ipNetworkParse (s : String) : Option (Nat × Nat) :=
  match splitOnChar '/' s.data with
  | [addr] => (parseIPv4 addr).map (fun a => (a, 32))
  | [addr, mask] => do
    let a ← parseIPv4 addr
    let p ← parsePrefixLen mask
    if a % 2 ^ (32 - p) = 0 then some (a, p) else none
  | _ => none

/-- `str(ipaddress.ip_network(...))`: canonical CIDR text. -/
def ipNetStr (net : Nat × Nat) : String :=
  toString (net.1 / 2 ^ 24 % 256) ++ "." ++ toString (net.1 / 2 ^ 16 % 256) ++ "." ++
    toString (net.1 / 2 ^ 8 % 256) ++ "." ++ toString (net.1 % 256) ++ "/" ++ toString net.2

/-- `get_ip_or_none` (lines 114-118): `ip_network` or `None`. -/
def get_ip_or_none (ip_str : String) : Option (Nat × Nat) :=
  ipNetworkParse ip_str

/-! ## The `bgp` routing-data lookup (lines 25-111) -/

/-- An HTTP exchange as seen by `requests.get(...)` followed by
`response.json()`: either a raised `requests.exceptions.RequestException`
(which includes the JSON-decode failure of modern `requests`), or a status
code with the decoded body. -/
inductive HttpResp where
  | exn (msg : String) : HttpResp
  | ok (status : Nat) (body : Json) : HttpResp

/-- Everything an invocation of `bgp` can do, abstracted to what is printed
and whether control returns normally.
* `invalidMsg` — the `except ValueError` handler (lines 108-111) printed
  "The value passed to --bgp is invalid: ..." / "Make sure the value passed
  is a valid ASN number of a valid IP Address/Subnet" and returned.
* `unableMsg` — the `else` branch (lines 106-107) printed
  "Error: Unable to retrieve BGP information for ASN None." (the local
  `asn` is still `None` there) and fell off the end.
* `transportErr` — an inner `except requests.exceptions.RequestException`
  handler printed "Error: {e}" and returned.
* `asnTable` — the ASN path printed its header and a table with the given
  rows (each row a list of cell values, line 47-52).
* `asnNoData` — the ASN path got a non-200 status: header printed, no
  table, normal return.
* `prefixTables` — the prefix path printed the summary row and the detail
  rows (lines 73-101).
* `prefixNoData` — the prefix path got a non-200 status: nothing printed,
  normal return.
* `uncaught` — a Python exception no handler in `bgp` catches escaped the
  function (and `main`), killing the process with a traceback. -/
inductive BgpOutcome where
  | invalidMsg : BgpOutcome
  | unableMsg : BgpOutcome
  | transportErr (msg : String) : BgpOutcome
  | asnTable (asn : Nat) (rows : List (List Json)) : BgpOutcome
  | asnNoData (asn : Nat) : BgpOutcome
  | prefixTables (summary : List Json) (details : List (List Json)) : BgpOutcome
  | prefixNoData : BgpOutcome
  | uncaught (e : PyExn) : BgpOutcome

/-- `True` exactly when the outcome is an exception escaping every handler. -/
def BgpOutcome.isUncaught : BgpOutcome → Bool
  | .uncaught _ => true
  | _ => false

def BGPVIEW : String := "https://api.bgpview.io"

def asnUrl (asn : Nat) : String := BGPVIEW ++ "/asn/" ++ toString asn ++ "/prefixes"

def prefixUrl (net : Nat × Nat) : String := BGPVIEW ++ "/prefix/" ++ ipNetStr net

/-- Sequencing of fallible row construction, preserving the first raised
exception, as the `for` loops at lines 46 and 89-90 do. -/
def exceptMap {α : Type} (f : Json → Except PyExn α) : List Json → Except PyExn (List α)
  | [] => .ok []
  | x :: xs => do
    let r ← f x
    let rs ← exceptMap f xs
    pure (r :: rs)

/-- One row of the ASN table (lines 47-52): `prefix['name']`,
`prefix['prefix']`, `str(prefix['cidr'])`, `"✓"`, arguments evaluated left
to right. -/
def asnRowEval (p : Json) : Except PyExn (List Json) := do
  let n ← pyIndex p "name"
  let pfx ← pyIndex p "prefix"
  let c ← pyIndex p "cidr"
  pure [n, pfx, .str (pyStr c), .str "✓"]

/-- The 200-status branch of the ASN path (lines 37-52): extract
`data.get('data', {})`, then `.get('ipv4_prefixes', [])`, then build one
row per prefix entry. -/
def asnEval (body : Json) : Except PyExn (List (List Json)) := do
  let asn_info ← pyGet body "data" (.obj [])
  let prefixesJ ← pyGet asn_info "ipv4_prefixes" (.arr [])
  let prefixes ← pyIter prefixesJ
  exceptMap asnRowEval prefixes

/-- One row of the per-upstream detail table (lines 91-98); the owning
ASN's fields are re-indexed on every iteration, so a missing key only
raises if at least one upstream exists. -/
def detailRowEval (a up : Json) : Except PyExn (List Json) := do
  let an ← pyIndex a "asn"
  let nm ← pyIndex a "name"
  let ds ← pyIndex a "description"
  let cc ← pyIndex a "country_code"
  let un ← pyIndex up "asn"
  let um ← pyIndex up "name"
  pure [.str (pyStr an), nm, ds, cc, .str (pyStr un), um]

/-- The inner loop of lines 89-98 for one owning ASN: iterate its
`prefix_upstreams`, one row per upstream. -/
def asnDetailEval (a : Json) : Except PyExn (List (List Json)) := do
  let upsJ ← pyIndex a "prefix_upstreams"
  let ups ← pyIter upsJ
  exceptMap (detailRowEval a) ups

/-- The 200-status branch of the prefix path (lines 62-101): summary row
(lines 73-80) then detail rows (lines 89-98), each field access in source
evaluation order. -/
def prefixEval (body : Json) : Except PyExn (List Json × List (List Json)) := do
  let prefix_info ← pyGet body "data" (.obj [])
  let _prefixes ← pyGet prefix_info "ipv4_prefixes" (.arr [])
  let name ← pyIndex prefix_info "name"
  let pfx ← pyIndex prefix_info "prefix"
  let ip ← pyIndex prefix_info "ip"
  let descr ← pyIndex prefix_info "description_short"
  let descCell := if jTruthy descr then descr else Json.str "UNKNOWN"
  let asnsJ ← pyIndex prefix_info "asns"
  let cnt ← pyLen asnsJ
  let summary := [name, pfx, ip, descCell, Json.str (pyStr (.num cnt)), Json.str "✓"]
  let asns ← pyIter asnsJ
  let detailss ← exceptMap asnDetailEval asns
  pure (summary, detailss.flatten)

/-- `bgp(bgp)` (lines 25-111) applied to the token and the HTTP exchange
the single `requests.get` of the taken path would see.  Returns the
outcome together with the list of URLs requested (empty when no network
call is made).  The `except ValueError` handler is modelled faithfully:
on the paths reachable with ASCII tokens no `ValueError` can be raised
inside the `try` (line 31's `int` succeeds whenever line 29's `isdigit`
did, and line 58 re-parses a string line 57 already parsed), so
`invalidMsg` is unreachable in the model. -/
def bgpRun (tok : String) (resp : HttpResp) : BgpOutcome × List String :=
  if pyIsDigit tok then
    let asn := pyInt tok
    match resp with
    | .exn m => (.transportErr m, [asnUrl asn])
    | .ok st body =>
      if st = 200 then
        match asnEval body with
        | .ok rows => (.asnTable asn rows, [asnUrl asn])
        | .error e => (.uncaught e, [asnUrl asn])
      else (.asnNoData asn, [asnUrl asn])
  else
    match get_ip_or_none tok with
    | some net =>
      match resp with
      | .exn m => (.transportErr m, [prefixUrl net])
      | .ok st body =>
        if st = 200 then
          match prefixEval body with
          | .ok sd => (.prefixTables sd.1 sd.2, [prefixUrl net])
          | .error e => (.uncaught e, [prefixUrl net])
        else (.prefixNoData, [prefixUrl net])
    | none => (.unableMsg, [])

/-! ## The `fqdn` DNS lookup (lines 121-163) -/

/-- The 16 record types of lines 122-123, in query order. -/
def rdtypes : List String :=
  ["A", "AAAA", "CNAME", "MX", "NS", "SOA", "PTR", "SRV", "TXT", "CAA", "DS", "DNSKEY",
    "RRSIG", "NSEC", "NSEC3", "NSEC3PARAM"]

/-- What one `resolver.resolve(fqdn, rdtype)` call does: a list of records
(their textual representations, in resolver order) or a raised exception
with message `str(e)`. -/
inductive DnsAnswer where
  | ok (records : List String) : DnsAnswer
  | exn (msg : String) : DnsAnswer

/-- Line 156's classification of a resolution failure message: the
expected-absence markers checked by `"NXDOMAIN" not in error_msg and
"NODATA" not in error_msg`. -/
def isExpectedAbsence (msg : String) : Bool :=
  pyIn "NXDOMAIN" msg || pyIn "NODATA" msg

/-- The rows the loop body (lines 148-157) adds for one record type:
one `(rdtype, str(rdata), "✓")` row per record on success; on failure
nothing when the message carries an expected-absence marker, otherwise the
single `(rdtype, "", "Error: {msg}")` row.  The inner `except Exception`
isolates the failure, so the loop always continues. -/
def rowsFor (resolve : String → DnsAnswer) (t : String) : List (String × String × String) :=
  match resolve t with
  | .ok recs => recs.map (fun r => (t, r, "✓"))
  | .exn m => if isExpectedAbsence m then [] else [(t, "", "Error: " ++ m)]

/-- Result of one `fqdn` invocation.
* `headerNs` — the nameserver shown in the `FQDN: ..., Nameserver: ...`
  header line (lines 130 and 136-137), printed before anything can fail.
* `result` — `.ok (titleNs, rows)` when the table is rendered (line 160),
  with the nameserver interpolated into the table title (line 141) and the
  accumulated rows; `.error msg` when the outer `except Exception`
  (lines 161-163) caught an exception and printed `Error: {msg}`.
* `queries` — the record types actually passed to `resolver.resolve`. -/
structure FqdnOut where
  headerNs : String
  result : Except String (String × List (String × String × String))
  queries : List String

/-- `fqdn(_fqdn, nameserver)` (lines 121-163) given the system-configured
resolver list and the behaviour of `resolver.resolve`.  Line 129 tests the
truthiness of `nameserver` (so the empty string selects the system
branch); when the system branch runs with an empty resolver list, line 137
prints the placeholder `'unknown'`, and then the table title's
`system_nameservers[0]` (line 141) raises `IndexError('list index out of
range')`, caught by the outer handler before any record type is queried. -/
def fqdnRun (_fqdn : String) (nameserver : Option String) (sysns : List String)
    (resolve : String → String → DnsAnswer) : FqdnOut :=
  let rows := rdtypes.flatMap (rowsFor (resolve _fqdn))
  match nameserver with
  | some ns =>
    if ns = "" then
      match sysns.head? with
      | some s0 => ⟨s0, .ok (s0, rows), rdtypes⟩
      | none => ⟨"unknown", .error "list index out of range", []⟩
    else ⟨ns, .ok (ns, rows), rdtypes⟩
  | none =>
    match sysns.head? with
    | some s0 => ⟨s0, .ok (s0, rows), rdtypes⟩
    | none => ⟨"unknown", .error "list index out of range", []⟩

/-! ## The `main` dispatcher (lines 12-22) -/

/-- The argparse namespace: `--fqdn`, `--nameserver`, `--subnet` and
`--target-host` take `nargs=1` (a one-element list when supplied, so the
list is truthy even when its element is `""`); `--bgp` is a bare string
(so `elif args.bgp:` is `False` for the empty string). -/
structure Args where
  fqdn : Option String
  nameserver : Option String
  subnet : Option String
  targetHost : Option String
  bgp : Option String

/-- What one invocation of `main` does: print the no-arguments notice, run
the DNS pipeline (with optional nameserver override), run the routing
pipeline on a token, or do nothing at all. -/
inductive MainAct where
  | notice : MainAct
  | dns (domain : String) (nameserver : Option String) : MainAct
  | bgpCall (tok : String) : MainAct
  | silent : MainAct
  deriving DecidableEq

/-- `main(args)` (lines 12-22): the notice requires all five attributes to
be `None`; then `if args.fqdn and args.nameserver is not None`, `elif
args.fqdn`, `elif args.bgp` in that order, and otherwise nothing runs and
nothing is printed. -/
def mainRun (a : Args) : MainAct :=
  if a.fqdn.isNone && a.nameserver.isNone && a.subnet.isNone && a.targetHost.isNone
      && a.bgp.isNone then
    .notice
  else
    match a.fqdn, a.nameserver with
    | some f, some n => .dns f (some n)
    | some f, none => .dns f none
    | none, _ =>
      match a.bgp with
      | some t => if t = "" then .silent else .bgpCall t
      | none => .silent

/-! ## Well-formed response bodies

Builders for bodies that follow the schema of the routing-data API
(spec section 6), used to state what the lookup does on responses whose
expected fields are present, and spec-side row constructors to compare
the embedded code against. -/

/-- One entry of `data.ipv4_prefixes`: `{ name, prefix, cidr }`. -/
structure AsnPfxEntry where
  name : String
  pfx : String
  cidr : Int

def asnEntryJson (e : AsnPfxEntry) : Json :=
  .obj [("name", .str e.name), ("prefix", .str e.pfx), ("cidr", .num e.cidr)]

/-- A 200 body `{ data: { ipv4_prefixes: [...] } }` for the ASN path. -/
def asnBody (entries : List AsnPfxEntry) : Json :=
  .obj [("data", .obj [("ipv4_prefixes", .arr (entries.map asnEntryJson))])]

/-- Spec-side AsnPrefixRow: name, prefix, cidr rendered as text, and the
fixed success marker. -/
def asnRowOf (e : AsnPfxEntry) : List Json :=
  [.str e.name, .str e.pfx, .str (toString e.cidr), .str "✓"]

/-- One entry of an owning ASN's `prefix_upstreams`: `{ asn, name }`. -/
structure UpstreamE where
  asn : Int
  name : String

/-- One entry of `data.asns`. -/
structure OwnAsnE where
  asn : Int
  name : String
  description : String
  countryCode : String
  upstreams : List UpstreamE

/-- The `data` object of a prefix response. -/
structure PfxInfo where
  name : String
  pfx : String
  ip : String
  descShort : String
  asns : List OwnAsnE

def upstreamJson (u : UpstreamE) : Json :=
  .obj [("asn", .num u.asn), ("name", .str u.name)]

def ownAsnJson (a : OwnAsnE) : Json :=
  .obj [("asn", .num a.asn), ("name", .str a.name), ("description", .str a.description),
    ("country_code", .str a.countryCode),
    ("prefix_upstreams", .arr (a.upstreams.map upstreamJson))]

/-- A 200 body `{ data: {...} }` for the prefix path. -/
def prefixBody (pi : PfxInfo) : Json :=
  .obj [("data", .obj [("name", .str pi.name), ("prefix", .str pi.pfx), ("ip", .str pi.ip),
    ("description_short", .str pi.descShort), ("asns", .arr (pi.asns.map ownAsnJson))])]

/-- Spec-side AsnDetailRow for one (owning ASN, upstream ASN) pair. -/
def detailRowOf (a : OwnAsnE) (u : UpstreamE) : List Json :=
  [.str (toString a.asn), .str a.name, .str a.description, .str a.countryCode,
    .str (toString u.asn), .str u.name]

/-- Spec-side PrefixSummaryRow, with the "UNKNOWN" sentinel for an empty
description and the owning-ASN count. -/
def summaryRowOf (pi : PfxInfo) : List Json :=
  [.str pi.name, .str pi.pfx, .str pi.ip,
    (if pi.descShort = "" then Json.str "UNKNOWN" else Json.str pi.descShort),
    .str (toString (pi.asns.length : Int)), .str "✓"]

/-! ## Helper lemmas -/

theorem exceptMap_map_ok {α β : Type} (f : Json → Except PyExn α) (g : β → Json) (h : β → α)
    (H : ∀ b, f (g b) = .ok (h b)) : ∀ l : List β, exceptMap f (l.map g) = .ok (l.map h)
  | [] => rfl
  | x :: xs => by
    simp only [List.map_cons, exceptMap, H x, exceptMap_map_ok f g h H xs]
    rfl

theorem asnRowEval_entry (e : AsnPfxEntry) : asnRowEval (asnEntryJson e) = .ok (asnRowOf e) :=
  rfl

theorem asnEval_asnBody (entries : List AsnPfxEntry) :
    asnEval (asnBody entries) = .ok (entries.map asnRowOf) :=
  Eq.trans rfl (exceptMap_map_ok asnRowEval asnEntryJson asnRowOf asnRowEval_entry entries)

theorem detailRowEval_entry (a : OwnAsnE) (u : UpstreamE) :
    detailRowEval (ownAsnJson a) (upstreamJson u) = .ok (detailRowOf a u) :=
  rfl

theorem asnDetailEval_entry (a : OwnAsnE) :
    asnDetailEval (ownAsnJson a) = .ok (a.upstreams.map (detailRowOf a)) :=
  Eq.trans rfl
    (exceptMap_map_ok (detailRowEval (ownAsnJson a)) upstreamJson (detailRowOf a)
      (detailRowEval_entry a) a.upstreams)


theorem prefixEval_prefixBody (pi : PfxInfo) :
    prefixEval (prefixBody pi) =
      .ok (summaryRowOf pi, pi.asns.flatMap (fun a => a.upstreams.map (detailRowOf a))) := by
  have hmap := exceptMap_map_ok asnDetailEval ownAsnJson
    (fun a => a.upstreams.map (detailRowOf a)) asnDetailEval_entry pi.asns
  calc prefixEval (prefixBody pi)
      = Except.bind (exceptMap asnDetailEval (pi.asns.map ownAsnJson)) (fun ds =>
          Except.ok ([Json.str pi.name, Json.str pi.pfx, Json.str pi.ip,
            (if jTruthy (Json.str pi.descShort) then Json.str pi.descShort
              else Json.str "UNKNOWN"),
            Json.str (pyStr (Json.num ((pi.asns.map ownAsnJson).length : Int))), Json.str "✓"],
            ds.flatten)) := rfl
    _ = .ok (summaryRowOf pi, pi.asns.flatMap (fun a => a.upstreams.map (detailRowOf a))) := by
        rw [hmap]
        show Except.ok _ = Except.ok _
        rw [List.length_map]
        have hdesc : (if jTruthy (Json.str pi.descShort) then Json.str pi.descShort
            else Json.str "UNKNOWN") =
            (if pi.descShort = "" then Json.str "UNKNOWN" else Json.str pi.descShort) := by
          by_cases h : pi.descShort = "" <;> simp [jTruthy, h]
        rw [hdesc]
        rfl

/-- The routing branch of `bgpRun` on a digit token and a 200 response,
expressed through the body builder. -/
theorem bgpRun_digit_200 (tok : String) (body : Json) (h : pyIsDigit tok = true) :
    bgpRun tok (HttpResp.ok 200 body) =
      (match asnEval body with
        | .ok rows => (BgpOutcome.asnTable (pyInt tok) rows, [asnUrl (pyInt tok)])
        | .error e => (BgpOutcome.uncaught e, [asnUrl (pyInt tok)])) := by
  simp [bgpRun, h]

/-- The routing branch of `bgpRun` on a non-digit token that parses as a
network, on a 200 response. -/
theorem bgpRun_net_200 (tok : String) (net : Nat × Nat) (body : Json)
    (h : pyIsDigit tok = false) (hp : get_ip_or_none tok = some net) :
    bgpRun tok (HttpResp.ok 200 body) =
      (match prefixEval body with
        | .ok sd => (BgpOutcome.prefixTables sd.1 sd.2, [prefixUrl net])
        | .error e => (BgpOutcome.uncaught e, [prefixUrl net])) := by
  simp [bgpRun, h, hp]

/-! ## The claims -/
/-- Truthiness of the `nameserver` parameter (line 129 / line 141 test the
string's truthiness, so `Some ""` behaves like `None`). -/
def nsTruthy : Option String → Bool
  | some n => !(n = "")
  | none => false

/-- The token classification implicit in lines 29 (`bgp.isdigit()`) and 57
(`get_ip_or_none`): all-digits → ASN, else parseable IP network → network,
else invalid. -/
inductive RoutingIdentifier where
  | asn (n : Nat) : RoutingIdentifier
  | net (p : Nat × Nat) : RoutingIdentifier
  | invalid : RoutingIdentifier
  deriving DecidableEq

/-- Classification of a routing token, as ordered in the source. -/
def classifyToken (tok : String) : RoutingIdentifier :=
  if pyIsDigit tok then .asn (pyInt tok)
  else match get_ip_or_none tok with
    | some p => .net p
    | none => .invalid

/-- C1, counterexample: the token `"not-a-token!"` is neither all-digits nor
parseable as an IP network, yet the lookup does not report the generic
validation error (`invalidMsg`): it prints the `else` branch's fallback
message and makes no network call. -/
theorem bgp_invalid_token_not_validation_msg :
    pyIsDigit "not-a-token!" = false ∧ get_ip_or_none "not-a-token!" = none ∧
    bgpRun "not-a-token!" (HttpResp.ok 200 Json.null) = (BgpOutcome.unableMsg, []) ∧
    BgpOutcome.unableMsg ≠ BgpOutcome.invalidMsg :=
  ⟨rfl, rfl, rfl, fun h => nomatch h⟩

/-- C1, amended: a token that is neither all-digits nor parseable as an IP
network takes the `else` branch of line 106: the lookup prints the fallback
message "Error: Unable to retrieve BGP information for ASN None." and makes
no network call; the generic validation error is printed only by the
`except ValueError` handler, which these tokens never reach. -/
theorem bgp_invalid_token_fallback (tok : String) (resp : HttpResp)
    (h1 : pyIsDigit tok = false) (h2 : get_ip_or_none tok = none) :
    bgpRun tok resp = (BgpOutcome.unableMsg, []) := by
  simp [bgpRun, h1, h2]

/-- C1, witness for the amended theorem at `"not-a-token!"`. -/
theorem bgp_invalid_token_fallback_w :
    bgpRun "not-a-token!" (HttpResp.exn "connection error") = (BgpOutcome.unableMsg, []) :=
  bgp_invalid_token_fallback "not-a-token!" (HttpResp.exn "connection error") rfl rfl

/-- C2, counterexample: an HTTP 200 prefix response whose `data` object is
empty reaches `prefix_info['name']` (line 74), raising a `KeyError` that no
handler in `bgp` catches (`except ValueError` and the inner
`except requests.exceptions.RequestException` both miss it), so the
exception escapes and the process dies with a traceback. -/
theorem bgp_empty_data_uncaught_keyerror :
    (bgpRun "8.8.8.0/24" (HttpResp.ok 200 (Json.obj [("data", Json.obj [])]))).1
      = BgpOutcome.uncaught (PyExn.keyError "name") ∧
    ((bgpRun "8.8.8.0/24" (HttpResp.ok 200 (Json.obj [("data", Json.obj [])]))).1).isUncaught
      = true :=
  ⟨rfl, rfl⟩

/-- C2, amended: no transport failure, non-200 status, invalid token, or
well-formed 200 response is fatal — those paths print a message and return
control; only a 200 routing response whose `data` lacks expected fields
raises an uncaught exception (see the counterexample). -/
theorem bgp_no_fatal_outside_missing_fields :
    (∀ tok m, ((bgpRun tok (HttpResp.exn m)).1).isUncaught = false)
  ∧ (∀ tok st body, st ≠ 200 → ((bgpRun tok (HttpResp.ok st body)).1).isUncaught = false)
  ∧ (∀ tok entries, pyIsDigit tok = true →
      ((bgpRun tok (HttpResp.ok 200 (asnBody entries))).1).isUncaught = false)
  ∧ (∀ tok pi, pyIsDigit tok = false →
      ((bgpRun tok (HttpResp.ok 200 (prefixBody pi))).1).isUncaught = false)
  ∧ (∀ tok resp, pyIsDigit tok = false → get_ip_or_none tok = none →
      ((bgpRun tok resp).1).isUncaught = false) := by
  refine ⟨?_, ?_, ?_, ?_, ?_⟩
  · intro tok m
    by_cases h : pyIsDigit tok = true
    · simp [bgpRun, h, BgpOutcome.isUncaught]
    · simp only [Bool.not_eq_true] at h
      cases hp : get_ip_or_none tok <;> simp [bgpRun, h, hp, BgpOutcome.isUncaught]
  · intro tok st body hst
    by_cases h : pyIsDigit tok = true
    · simp [bgpRun, h, hst, BgpOutcome.isUncaught]
    · simp only [Bool.not_eq_true] at h
      cases hp : get_ip_or_none tok <;> simp [bgpRun, h, hp, hst, BgpOutcome.isUncaught]
  · intro tok entries h
    rw [bgpRun_digit_200 tok _ h, asnEval_asnBody]
    rfl
  · intro tok pi h
    cases hp : get_ip_or_none tok with
    | none => simp [bgpRun, h, hp, BgpOutcome.isUncaught]
    | some net =>
      rw [bgpRun_net_200 tok net _ h hp, prefixEval_prefixBody]
      rfl
  · intro tok resp h1 h2
    simp [bgpRun, h1, h2, BgpOutcome.isUncaught]

/-- C2, witness for the amended theorem: concrete non-fatal paths. -/
theorem bgp_no_fatal_outside_missing_fields_w :
    ((bgpRun "15169" (HttpResp.exn "boom")).1).isUncaught = false ∧
    ((bgpRun "15169" (HttpResp.ok 404 Json.null)).1).isUncaught = false ∧
    ((bgpRun "15169" (HttpResp.ok 200 (asnBody []))).1).isUncaught = false ∧
    ((bgpRun "8.8.8.0/24" (HttpResp.ok 200 (prefixBody ⟨"n", "p", "i", "d", []⟩))).1).isUncaught
      = false :=
  ⟨bgp_no_fatal_outside_missing_fields.1 "15169" "boom",
   bgp_no_fatal_outside_missing_fields.2.1 "15169" 404 Json.null (by decide),
   bgp_no_fatal_outside_missing_fields.2.2.1 "15169" [] rfl,
   bgp_no_fatal_outside_missing_fields.2.2.2.1 "8.8.8.0/24" ⟨"n", "p", "i", "d", []⟩ rfl⟩

/-- C3: for each record type, a failure whose message carries an
expected-absence marker ("NXDOMAIN"/"NODATA", the code's rendering of
"domain does not exist" / "no data of this type") contributes zero rows; any
other failure contributes exactly one row with empty data and a non-empty
error message; and the scan still runs over all 16 types in order,
concatenating each type's rows. -/
theorem dns_per_type_failure_rows :
    (∀ (resolve : String → DnsAnswer) t m, resolve t = DnsAnswer.exn m →
        isExpectedAbsence m = true → rowsFor resolve t = [])
  ∧ (∀ (resolve : String → DnsAnswer) t m, resolve t = DnsAnswer.exn m →
        isExpectedAbsence m = false →
        rowsFor resolve t = [(t, "", "Error: " ++ m)] ∧ ("Error: " ++ m) ≠ "")
  ∧ (∀ d ns sysns (resolve : String → String → DnsAnswer),
        (nsTruthy ns || !sysns.isEmpty) = true →
        (fqdnRun d ns sysns resolve).queries = rdtypes ∧
        ∃ tns, (fqdnRun d ns sysns resolve).result =
          Except.ok (tns, rdtypes.flatMap (rowsFor (resolve d)))) := by
  refine ⟨?_, ?_, ?_⟩
  · intro resolve t m hr hm
    simp [rowsFor, hr, hm]
  · intro resolve t m hr hm
    refine ⟨by simp [rowsFor, hr, hm], ?_⟩
    intro h
    have h2 := congrArg String.data h
    simp [String.data_append] at h2
  · intro d ns sysns resolve h
    cases ns with
    | some n =>
      by_cases hn : n = ""
      · subst hn
        simp [nsTruthy] at h
        cases sysns with
        | nil => simp at h
        | cons s0 rest => exact ⟨rfl, s0, rfl⟩
      · have : (fqdnRun d (some n) sysns resolve) =
            ⟨n, .ok (n, rdtypes.flatMap (rowsFor (resolve d))), rdtypes⟩ := by
          simp [fqdnRun, hn]
        rw [this]
        exact ⟨rfl, n, rfl⟩
    | none =>
      simp [nsTruthy] at h
      cases sysns with
      | nil => simp at h
      | cons s0 rest => exact ⟨rfl, s0, rfl⟩

/-- C3, witness: an NXDOMAIN-marked failure yields no row, a timeout yields
one error row, and a full run over a nonempty resolver list queries all 16
types. -/
theorem dns_per_type_failure_rows_w :
    rowsFor (fun _ => DnsAnswer.exn "The DNS query name does not exist: NXDOMAIN") "A" = [] ∧
    rowsFor (fun _ => DnsAnswer.exn "The resolution lifetime expired") "MX"
      = [("MX", "", "Error: " ++ "The resolution lifetime expired")] ∧
    (fqdnRun "example.com" none ["8.8.8.8"] (fun _ _ => DnsAnswer.ok ["93.184.216.34"])).queries
      = rdtypes :=
  ⟨dns_per_type_failure_rows.1 _ "A" _ rfl rfl,
   (dns_per_type_failure_rows.2.1 _ "MX" "The resolution lifetime expired" rfl rfl).1,
   (dns_per_type_failure_rows.2.2 "example.com" none ["8.8.8.8"]
      (fun _ _ => DnsAnswer.ok ["93.184.216.34"]) rfl).1⟩

/-- C4, counterexample: a 200 prefix response whose `data` has `name`,
`prefix`, `ip` and `asns` but no `description_short` does not render
"UNKNOWN": line 77 indexes the missing key and the resulting `KeyError`
escapes every handler. -/
theorem bgp_absent_description_uncaught :
    (bgpRun "8.8.8.0/24" (HttpResp.ok 200 (Json.obj [("data", Json.obj
        [("name", Json.str "G"), ("prefix", Json.str "8.8.8.0/24"),
         ("ip", Json.str "8.8.8.0"), ("asns", Json.arr [])])]))).1
      = BgpOutcome.uncaught (PyExn.keyError "description_short") :=
  rfl

/-- C4, amended: in the prefix-summary row, the description cell equals
`description_short` when that field is present and non-empty, and equals
the sentinel "UNKNOWN" when it is present but empty; an absent
`description_short` instead raises an uncaught `KeyError` (see the
counterexample). -/
theorem bgp_description_cell (tok : String) (net : Nat × Nat) (pi : PfxInfo)
    (h1 : pyIsDigit tok = false) (h2 : get_ip_or_none tok = some net) :
    ∃ details, bgpRun tok (HttpResp.ok 200 (prefixBody pi)) =
      (BgpOutcome.prefixTables [Json.str pi.name, Json.str pi.pfx, Json.str pi.ip,
        (if pi.descShort = "" then Json.str "UNKNOWN" else Json.str pi.descShort),
        Json.str (toString (pi.asns.length : Int)), Json.str "✓"] details, [prefixUrl net]) := by
  refine ⟨pi.asns.flatMap (fun a => a.upstreams.map (detailRowOf a)), ?_⟩
  rw [bgpRun_net_200 tok net _ h1 h2, prefixEval_prefixBody]
  rfl

/-- C4, witness: a response with an empty `description_short` renders the
"UNKNOWN" sentinel in the description cell. -/
theorem bgp_description_cell_w :
    ∃ details, bgpRun "8.8.8.0/24"
        (HttpResp.ok 200 (prefixBody ⟨"LVLT-GOGL", "8.8.8.0/24", "8.8.8.0", "", []⟩)) =
      (BgpOutcome.prefixTables [Json.str "LVLT-GOGL", Json.str "8.8.8.0/24", Json.str "8.8.8.0",
        Json.str "UNKNOWN", Json.str (toString (0 : Int)), Json.str "✓"] details,
        [prefixUrl (134744064, 24)]) :=
  bgp_description_cell "8.8.8.0/24" (134744064, 24) ⟨"LVLT-GOGL", "8.8.8.0/24", "8.8.8.0", "", []⟩
    rfl rfl

/-- C5, counterexample: a DNS lookup without a nameserver override on a
system with an empty resolver list surfaces the "unknown" placeholder in
the header, but does not proceed: the table title's `system_nameservers[0]`
(line 141) raises `IndexError`, the outer handler prints the error, and
zero of the 16 record types are queried. -/
theorem dns_empty_resolvers_aborts :
    fqdnRun "example.com" none [] (fun _ _ => DnsAnswer.exn "timed out")
      = ⟨"unknown", Except.error "list index out of range", []⟩ ∧
    (fqdnRun "example.com" none [] (fun _ _ => DnsAnswer.exn "timed out")).queries ≠ rdtypes :=
  ⟨rfl, by decide⟩

/-- C5, amended: without a nameserver override and with an empty system
resolver list, the placeholder "unknown" is surfaced in the header line,
after which the lookup aborts via the caught `IndexError` from the table
title: no record type is queried and no table is rendered. -/
theorem dns_empty_resolvers_behavior (d : String) (resolve : String → String → DnsAnswer) :
    fqdnRun d none [] resolve = ⟨"unknown", Except.error "list index out of range", []⟩ :=
  rfl

/-- C6: on a 200 ASN response, exactly one row per `data.ipv4_prefixes`
entry in list order, carrying the entry's name, prefix and cidr and the
fixed success marker; an absent `ipv4_prefixes` (or an empty list) yields
zero rows without error; a non-200 status yields no rows and no
exception. -/
theorem bgp_asn_rows :
    (∀ tok entries, pyIsDigit tok = true →
        bgpRun tok (HttpResp.ok 200 (asnBody entries)) =
          (BgpOutcome.asnTable (pyInt tok) (entries.map asnRowOf), [asnUrl (pyInt tok)]))
  ∧ (∀ tok, pyIsDigit tok = true →
        bgpRun tok (HttpResp.ok 200 (Json.obj [("data", Json.obj [])])) =
          (BgpOutcome.asnTable (pyInt tok) [], [asnUrl (pyInt tok)]))
  ∧ (∀ tok st body, pyIsDigit tok = true → st ≠ 200 →
        bgpRun tok (HttpResp.ok st body) =
          (BgpOutcome.asnNoData (pyInt tok), [asnUrl (pyInt tok)])) := by
  refine ⟨?_, ?_, ?_⟩
  · intro tok entries h
    rw [bgpRun_digit_200 tok _ h, asnEval_asnBody]
  · intro tok h
    rw [bgpRun_digit_200 tok _ h]
    rfl
  · intro tok st body h hst
    simp [bgpRun, h, hst]

/-- C6, witness: the section-8 example — ASN token "13335", one returned
prefix entry — yields exactly one success row; a 404 yields no rows. -/
theorem bgp_asn_rows_w :
    bgpRun "13335" (HttpResp.ok 200 (asnBody [⟨"CF-1", "1.1.1.0/24", 24⟩])) =
      (BgpOutcome.asnTable 13335
        [[Json.str "CF-1", Json.str "1.1.1.0/24", Json.str (toString (24 : Int)), Json.str "✓"]],
        [asnUrl 13335]) ∧
    bgpRun "13335" (HttpResp.ok 404 Json.null) =
      (BgpOutcome.asnNoData 13335, [asnUrl 13335]) :=
  ⟨bgp_asn_rows.1 "13335" [⟨"CF-1", "1.1.1.0/24", 24⟩] rfl,
   bgp_asn_rows.2.2 "13335" 404 Json.null rfl (by decide)⟩

/-- C7: on a successful prefix lookup, the detail table has exactly one row
per (owning ASN, upstream ASN) pair in nested iteration order over
`data.asns` and each ASN's `prefix_upstreams`; the summary row's ASN-count
cell counts every owning ASN; and an ASN with an empty upstream list
contributes zero detail rows. -/
theorem bgp_detail_rows (tok : String) (net : Nat × Nat) (pi : PfxInfo)
    (h1 : pyIsDigit tok = false) (h2 : get_ip_or_none tok = some net) :
    bgpRun tok (HttpResp.ok 200 (prefixBody pi)) =
      (BgpOutcome.prefixTables (summaryRowOf pi)
        (pi.asns.flatMap (fun a => a.upstreams.map (detailRowOf a))), [prefixUrl net])
    ∧ (summaryRowOf pi).get? 4 = some (Json.str (toString (pi.asns.length : Int)))
    ∧ ∀ a ∈ pi.asns, a.upstreams = [] → a.upstreams.map (detailRowOf a) = [] := by
  refine ⟨?_, rfl, fun a _ ha => by rw [ha]; rfl⟩
  rw [bgpRun_net_200 tok net _ h1 h2, prefixEval_prefixBody]

/-- C7, witness: two owning ASNs, the first with no upstreams — the summary
counts both, the detail table has exactly one row, from the second. -/
theorem bgp_detail_rows_w :
    bgpRun "8.8.8.0/24" (HttpResp.ok 200 (prefixBody
        ⟨"LVLT-GOGL", "8.8.8.0/24", "8.8.8.0", "Google LLC",
          [⟨15169, "GOOGLE", "Google LLC", "US", []⟩,
           ⟨396982, "GOOGLE-CLOUD", "GCP", "US", [⟨3356, "LEVEL3"⟩]⟩]⟩)) =
      (BgpOutcome.prefixTables
        (summaryRowOf ⟨"LVLT-GOGL", "8.8.8.0/24", "8.8.8.0", "Google LLC",
          [⟨15169, "GOOGLE", "Google LLC", "US", []⟩,
           ⟨396982, "GOOGLE-CLOUD", "GCP", "US", [⟨3356, "LEVEL3"⟩]⟩]⟩)
        [[Json.str (toString (396982 : Int)), Json.str "GOOGLE-CLOUD", Json.str "GCP",
          Json.str "US", Json.str (toString (3356 : Int)), Json.str "LEVEL3"]],
        [prefixUrl (134744064, 24)]) :=
  (bgp_detail_rows "8.8.8.0/24" (134744064, 24)
    ⟨"LVLT-GOGL", "8.8.8.0/24", "8.8.8.0", "Google LLC",
      [⟨15169, "GOOGLE", "Google LLC", "US", []⟩,
       ⟨396982, "GOOGLE-CLOUD", "GCP", "US", [⟨3356, "LEVEL3"⟩]⟩]⟩ rfl rfl).1

/-- C8, counterexample: every character of the empty token is (vacuously) a
decimal digit, yet `"".isdigit()` is `False` and the empty string does not
parse as a network, so the classification is Invalid — not the ASN of the
token's integer value. -/
theorem classify_empty_token :
    (("" : String).data.all Char.isDigit) = true ∧
    classifyToken "" = RoutingIdentifier.invalid ∧
    decide (classifyToken "" = RoutingIdentifier.asn (pyInt "")) = false :=
  ⟨rfl, rfl, rfl⟩

/-- C8, amended: classification is purely syntactic and ordered, for
nonempty all-digit tokens: such a token is the ASN of its integer value;
any other token parsing as an IP network is that network; any remaining
token is Invalid.  `"15169"` → ASN 15169, `"8.8.8.0/24"` → the network
8.8.8.0/24, `"not-a-token!"` → Invalid. -/
theorem classify_ordered :
    (∀ tok : String, tok.data ≠ [] → tok.data.all Char.isDigit = true →
        classifyToken tok = RoutingIdentifier.asn (pyInt tok))
  ∧ (∀ tok net, pyIsDigit tok = false → get_ip_or_none tok = some net →
        classifyToken tok = RoutingIdentifier.net net)
  ∧ (∀ tok, pyIsDigit tok = false → get_ip_or_none tok = none →
        classifyToken tok = RoutingIdentifier.invalid)
  ∧ classifyToken "15169" = RoutingIdentifier.asn 15169
  ∧ classifyToken "8.8.8.0/24" = RoutingIdentifier.net (134744064, 24)
  ∧ ipNetStr (134744064, 24) = "8.8.8.0/24"
  ∧ classifyToken "not-a-token!" = RoutingIdentifier.invalid := by
  refine ⟨?_, ?_, ?_, rfl, rfl, rfl, rfl⟩
  · intro tok hne hdig
    have hd : pyIsDigit tok = true := by
      unfold pyIsDigit
      cases hl : tok.data with
      | nil => exact absurd hl hne
      | cons c cs => rw [hl] at hdig; simp [hdig]
    simp [classifyToken, hd]
  · intro tok net h1 h2
    simp [classifyToken, h1, h2]
  · intro tok h1 h2
    simp [classifyToken, h1, h2]

/-- C8, witness for the amended theorem at the three example tokens. -/
theorem classify_ordered_w :
    classifyToken "15169" = RoutingIdentifier.asn (pyInt "15169") ∧
    classifyToken "8.8.8.0/24" = RoutingIdentifier.net (134744064, 24) ∧
    classifyToken "not-a-token!" = RoutingIdentifier.invalid :=
  ⟨classify_ordered.1 "15169" (by decide) rfl,
   classify_ordered.2.1 "8.8.8.0/24" (134744064, 24) rfl rfl,
   classify_ordered.2.2.1 "not-a-token!" rfl rfl⟩

/-- C9, counterexample: with only `--subnet` supplied — no relevant input —
the dispatcher prints nothing, not the "no arguments provided" notice (that
notice requires all five attributes to be `None`); and a supplied but empty
routing token is falsy at `elif args.bgp:`, so the routing pipeline does
not run either. -/
theorem main_only_subnet_silent :
    mainRun ⟨none, none, some "192.0.2.0/24", none, none⟩ = MainAct.silent ∧
    decide (mainRun ⟨none, none, some "192.0.2.0/24", none, none⟩ = MainAct.notice) = false ∧
    mainRun ⟨none, none, none, none, some ""⟩ = MainAct.silent :=
  ⟨rfl, rfl, rfl⟩

/-- C9, amended: the dispatcher invokes at most one pipeline with FQDN
priority — a supplied FQDN runs the DNS pipeline with the nameserver
override exactly when one was supplied, and the routing pipeline not at
all; otherwise a supplied nonempty routing token runs the routing pipeline;
the "no arguments provided" notice is emitted exactly when none of the five
flags was supplied; and in every remaining case (only irrelevant flags, or
an empty routing token) nothing is printed and no pipeline runs. -/
theorem main_dispatch :
    (∀ (a : Args) (f : String), a.fqdn = some f → mainRun a = MainAct.dns f a.nameserver)
  ∧ (∀ (a : Args) (t : String), a.fqdn = none → a.bgp = some t → t ≠ "" →
        mainRun a = MainAct.bgpCall t)
  ∧ (∀ a : Args, mainRun a = MainAct.notice ↔
        (a.fqdn = none ∧ a.nameserver = none ∧ a.subnet = none ∧ a.targetHost = none ∧
          a.bgp = none))
  ∧ (∀ a : Args, a.fqdn = none → (a.bgp = none ∨ a.bgp = some "") →
        mainRun a = MainAct.notice ∨ mainRun a = MainAct.silent) := by
  refine ⟨?_, ?_, ?_, ?_⟩
  · intro a f hf
    obtain ⟨fq, ns, sb, th, b⟩ := a
    simp only at hf ⊢
    subst hf
    cases ns <;> simp [mainRun]
  · intro a t hf hb ht
    obtain ⟨fq, ns, sb, th, b⟩ := a
    simp only at hf hb ⊢
    subst hf; subst hb
    simp [mainRun, ht]
  · intro a
    obtain ⟨fq, ns, sb, th, b⟩ := a
    cases fq <;> cases ns <;> cases sb <;> cases th <;> cases b <;>
      simp [mainRun] <;> split <;> simp_all
  · intro a hf hb
    obtain ⟨fq, ns, sb, th, b⟩ := a
    simp only at hf ⊢
    subst hf
    rcases hb with hb | hb <;> simp only at hb <;> subst hb <;>
      cases ns <;> cases sb <;> cases th <;> simp [mainRun]

/-- C9, witness for the amended theorem: FQDN runs DNS with the override
and a nonempty routing token runs the routing pipeline. -/
theorem main_dispatch_w :
    mainRun ⟨some "example.com", some "1.1.1.1", none, none, some "15169"⟩
      = MainAct.dns "example.com" (some "1.1.1.1") ∧
    mainRun ⟨none, none, none, none, some "15169"⟩ = MainAct.bgpCall "15169" :=
  ⟨main_dispatch.1 ⟨some "example.com", some "1.1.1.1", none, none, some "15169"⟩
      "example.com" rfl,
   main_dispatch.2.1 ⟨none, none, none, none, some "15169"⟩ "15169" rfl rfl (by decide)⟩

/-- C10: an invocation with at least one flag among `--nameserver`,
`--subnet`, `--target-host` but neither `--fqdn` nor `--bgp` prints nothing
at all — no notice, no table, no error — and runs no pipeline, hence makes
no network call. -/
theorem main_inert_flags_silent (ns sb th : Option String)
    (h : ns ≠ none ∨ sb ≠ none ∨ th ≠ none) :
    mainRun ⟨none, ns, sb, th, none⟩ = MainAct.silent := by
  rcases h with h | h | h <;> cases ns <;> cases sb <;> cases th <;> simp_all [mainRun]

/-- C10, witness: only `--nameserver` supplied. -/
theorem main_inert_flags_silent_w :
    mainRun ⟨none, some "8.8.8.8", none, none, none⟩ = MainAct.silent :=
  main_inert_flags_silent (some "8.8.8.8") none none (Or.inl (by decide))
